import Mathlib

/-
  Shallow embedding of src/python-service/app.py (Personal Finance Tracker,
  python expense-analyzer service).

  Modelling conventions:
  * `amount` values (Python floats) are embedded as exact rationals `ℚ`;
    all sums, means, percentages and thresholds are computed exactly.
  * `date` values are embedded at calendar-day granularity as `Int` day
    indices, with the convention that a day index `d` has
    `weekday d = d % 7` and day index 0 is a Monday (pandas weekday
    numbering: Monday = 0, ..., Sunday = 6; weekend = weekday ≥ 5).
    `datetime.now()` is an explicit parameter `now : Int` (same day
    granularity); `datetime.now() - timedelta(days=7)` is `now - 7`.
  * pandas `groupby` sorts group keys ascending (`sort=True` default), so
    grouping is embedded as: sorted deduplicated key list, each key paired
    with the sum of `amount` over the records carrying it.
  * `Series.std()` is the sample standard deviation (ddof = 1).  The code
    only compares `std` against `c * mean`; the comparison is embedded
    without square roots: for `m = c * mean`, `std > m` iff `m < 0` or
    `var > m ^ 2`, and `std < m` iff `0 < m` and `var < m ^ 2`
    (`std = √var ≥ 0`).
  * Python `f'{x:,.2f}'` / `f'{x:.1f}'` formatting is embedded by exact
    decimal rounding (half-to-even) with thousands grouping of the integer
    part.
  * fallible boundary parsing (pd.to_datetime / pd.to_numeric) is embedded
    with `Option`-valued raw fields (`none` = unparseable) and an
    `Except`-valued route.
-/

set_option maxRecDepth 100000

namespace PFT

/-- A parsed expense record: the four fields the analyzer reads. -/
structure ExpenseRecord where
  date : Int
  amount : ℚ
  category : String
  paymentMethod : String
deriving DecidableEq

/-- A raw (boundary) expense record: `none` in `date` / `amount` stands for a
value that `pd.to_datetime` / `pd.to_numeric` fails to parse. -/
structure RawRecord where
  date : Option Int
  amount : Option ℚ
  category : String
  paymentMethod : String
deriving DecidableEq

/-- One suggestion dictionary: `{'type': ..., 'message': ..., 'priority': ...}`. -/
structure Suggestion where
  type : String
  message : String
  priority : String
deriving DecidableEq

/-- The `analysis` dictionary.  The empty-batch branch of `analyze_expenses`
returns a dictionary with only `totalSpending`, `averageDailySpending`,
`topCategory` and `message`; the fields absent there are `Option`-valued and
`none` models the absent dictionary key. -/
structure Analysis where
  totalSpending : ℚ
  averageDailySpending : ℚ
  topCategory : String
  topCategoryAmount : Option ℚ
  categoryBreakdown : Option (List (String × ℚ))
  paymentMethodBreakdown : Option (List (String × ℚ))
  efficiencyScore : Option Int
  patterns : Option (List String)
  message : String
deriving DecidableEq

/-- The value returned by `ExpenseAnalyzer.analyze_expenses`. -/
structure AnalyzeResult where
  suggestions : List Suggestion
  analysis : Analysis
deriving DecidableEq

/-- The dictionary returned by the `/insights` route on success. -/
structure Insights where
  totalSpending : ℚ
  averageDailySpending : ℚ
  topCategory : String
  topPaymentMethod : String
  categoryBreakdown : List (String × ℚ)
  paymentMethodBreakdown : List (String × ℚ)
  transactionCount : Nat
  daysAnalyzed : Int
deriving DecidableEq

/-- `self.spending_thresholds` from `ExpenseAnalyzer.__init__`. -/
structure Thresholds where
  low : ℚ
  medium : ℚ
  high : ℚ
deriving DecidableEq

/-- The analyzer's threshold configuration: low 1000, medium 5000, high 10000. -/
def spending_thresholds : Thresholds := ⟨1000, 5000, 10000⟩

/-! ### Decimal formatting (Python `f'{x:,.2f}'`, `f'{x:.1f}'`) -/

/-- Round a rational to the nearest integer, ties to even (the rounding used
when Python formats a value with a fixed number of decimals). -/
def rhe (q : ℚ) : Int :=
  let f := ⌊q⌋
  let r := q - (f : ℚ)
  if r < (1 : ℚ) / 2 then f
  else if (1 : ℚ) / 2 < r then f + 1
  else if f % 2 = 0 then f else f + 1

/-- Decimal digits of a natural number, most significant first (core's
fuel-based digit renderer, so it reduces in the kernel). -/
def natDigits (n : Nat) : List Char := Nat.toDigits 10 n

/-- Insert a `,` every three digits, working over a reversed digit list;
the counter is the number of digits still allowed before the next comma. -/
def commaRev : Nat → List Char → List Char
  | _, [] => []
  | 0, c :: cs => ',' :: c :: commaRev 2 cs
  | k + 1, c :: cs => c :: commaRev k cs

/-- Thousands-grouped decimal rendering of a natural number. -/
def fmtGrouped (n : Nat) : String :=
  String.mk (commaRev 3 (natDigits n).reverse).reverse

/-- Left-pad a digit list with zeros to width `d`. -/
def padZeros (d : Nat) (cs : List Char) : List Char :=
  List.replicate (d - cs.length) '0' ++ cs

/-- Fixed-point rendering of a rational with `d` decimals, optionally with
thousands separators in the integer part (Python `,` flag). -/
def fmtFixed (d : Nat) (comma : Bool) (q : ℚ) : String :=
  let n : Int := rhe (q * ((10 : ℚ) ^ d))
  let sign := if n < 0 then "-" else ""
  let m := n.natAbs
  let ip := m / 10 ^ d
  let fp := m % 10 ^ d
  let ipStr := if comma then fmtGrouped ip else String.mk (natDigits ip)
  if d = 0 then sign ++ ipStr
  else sign ++ ipStr ++ "." ++ String.mk (padZeros d (natDigits fp))

/-- Python `f'{x:,.2f}'` (used for currency amounts). -/
def fmtMoney (q : ℚ) : String := fmtFixed 2 true q

/-- Python `f'{x:.1f}'` (used for percentages). -/
def fmtPct (q : ℚ) : String := fmtFixed 1 false q

/-! ### Statistics helpers -/

/-- Mean of a list of rationals (`Series.mean()`); 0 on the empty list. -/
def listMean (vals : List ℚ) : ℚ := vals.sum / (vals.length : ℚ)

/-- Sample variance (`ddof = 1`, matching `Series.std() ^ 2`); the code only
consults it behind a `len > 1` guard. -/
def sampleVar (vals : List ℚ) : ℚ :=
  ((vals.map fun x => (x - listMean vals) ^ 2).sum) / ((vals.length : ℚ) - 1)

/-- `Series.std() > c * Series.mean()`, expressed without square roots:
for `m = c * mean`, `√var > m` iff `m < 0` or `var > m ^ 2`. -/
def stdGtMul (vals : List ℚ) (c : ℚ) : Bool :=
  decide (listMean vals * c < 0) || decide (sampleVar vals > (listMean vals * c) ^ 2)

/-- `Series.std() < c * Series.mean()`, expressed without square roots:
for `m = c * mean`, `√var < m` iff `0 < m` and `var < m ^ 2`. -/
def stdLtMul (vals : List ℚ) (c : ℚ) : Bool :=
  decide (0 < listMean vals * c) && decide (sampleVar vals < (listMean vals * c) ^ 2)

/-! ### Grouping (pandas `groupby(...).sum()`, keys sorted ascending) -/

/-- Sorted list of the distinct elements of `l` (pandas group keys). -/
def dedupSorted {κ : Type} [DecidableEq κ] [LinearOrder κ] (l : List κ) : List κ :=
  List.insertionSort (fun a b => a ≤ b) l.dedup

/-- `df.groupby(key)['amount'].sum()`: each distinct key (ascending) paired
with the sum of `amount` over the records carrying it. -/
def groupSum {κ : Type} [DecidableEq κ] [LinearOrder κ]
    (recs : List ExpenseRecord) (key : ExpenseRecord → κ) : List (κ × ℚ) :=
  (dedupSorted (recs.map key)).map fun k =>
    (k, ((recs.filter fun r => decide (key r = k)).map fun r => r.amount).sum)

/-- Tail of `idxmax`: first key attaining the maximum value wins. -/
def idxmaxAux {κ : Type} : κ → ℚ → List (κ × ℚ) → κ
  | k, _, [] => k
  | k, v, p :: t => if p.2 > v then idxmaxAux p.1 p.2 t else idxmaxAux k v t

/-- `Series.idxmax()`: the first key (in series order) with the maximal
value; the default is only reached on an empty series. -/
def listIdxmax {κ : Type} (dflt : κ) : List (κ × ℚ) → κ
  | [] => dflt
  | p :: t => idxmaxAux p.1 p.2 t

/-- `Series.max()` over the values of a grouped series; 0 on empty. -/
def listMaxVal {κ : Type} : List (κ × ℚ) → ℚ
  | [] => 0
  | p :: t => t.foldl (fun a q => max a q.2) p.2

/-- Maximum of a list of naturals (`value_counts().max()`); 0 on empty. -/
def natListMax (l : List Nat) : Nat := l.foldl max 0

/-- pandas `Series.quantile(p)` with the default linear interpolation:
on the ascending sort `s` of the values, let `h = p * (n - 1)`,
`i = ⌊h⌋`; the result is `s[i] + (h - i) * (s[i+1] - s[i])`
(`s[i+1]` falling back to `s[i]` at the top rank). -/
def quantile (vals : List ℚ) (p : ℚ) : ℚ :=
  let s := List.insertionSort (fun a b => a ≤ b) vals
  let n := s.length
  let h := p * ((n : ℚ) - 1)
  let i := (⌊h⌋).toNat
  let lo := s.getD i 0
  let hi := s.getD (i + 1) lo
  lo + (h - (i : ℚ)) * (hi - lo)

/-- pandas `Timestamp.weekday` under the day-index convention:
Monday = 0, ..., Sunday = 6; weekend days are those with weekday ≥ 5. -/
def weekday (d : Int) : Int := d % 7

/-! ### `ExpenseAnalyzer._generate_suggestions` -/

/-- The suggestion list accumulated by `_generate_suggestions` before the
final `suggestions[:5]` truncation: the six ordered rules (spending level,
category concentration, daily variance, payment diversity, recent trend,
fallback tip), each appending in generation order.  `avg` and `topCat` are
the unused `average_daily` / `top_category` parameters of the source. -/
def suggestionsBase (recs : List ExpenseRecord) (total_spending : ℚ)
    (avg : ℚ) (topCat : String) (now : Int) : List Suggestion :=
  let s1 : List Suggestion :=
    if total_spending > spending_thresholds.high then
      [⟨"warning",
        "Your total spending of ₹" ++ fmtMoney total_spending ++
          " in the last 30 days is quite high. Consider reviewing your expenses and identifying areas to cut back.",
        "high"⟩]
    else if total_spending > spending_thresholds.medium then
      [⟨"advice",
        "Your spending of ₹" ++ fmtMoney total_spending ++
          " is moderate. Look for opportunities to optimize your budget.",
        "medium"⟩]
    else []
  let category_totals := groupSum recs fun r => r.category
  let s2 : List Suggestion := category_totals.filterMap fun p =>
    let percentage := p.2 / total_spending * 100
    if percentage > 40 then
      some ⟨"advice",
        p.1 ++ " accounts for " ++ fmtPct percentage ++
          "% of your spending. Consider setting a specific budget for this category.",
        "medium"⟩
    else none
  let daily_spending := (groupSum recs fun r => r.date).map fun p => p.2
  let s3 : List Suggestion :=
    if 1 < daily_spending.length ∧ stdGtMul daily_spending ((1 : ℚ) / 2) then
      [⟨"tip",
        "Your daily spending varies significantly. Try to maintain more consistent spending patterns.",
        "low"⟩]
    else []
  let payment_methods := dedupSorted (recs.map fun r => r.paymentMethod)
  let s4 : List Suggestion :=
    if payment_methods.length = 1 then
      [⟨"tip",
        "You only use " ++ payment_methods.headD "" ++
          " for payments. Consider diversifying your payment methods for better tracking.",
        "low"⟩]
    else []
  let recent_expenses := recs.filter fun r => decide (r.date ≥ now - 7)
  let s5 : List Suggestion :=
    if 0 < recent_expenses.length then
      let recent_total := (recent_expenses.map fun r => r.amount).sum
      let previous_week_total := total_spending - recent_total
      if previous_week_total > 0 then
        let change_percentage := (recent_total - previous_week_total) / previous_week_total * 100
        if change_percentage > 20 then
          [⟨"warning",
            "Your spending increased by " ++ fmtPct change_percentage ++
              "% this week compared to the previous week.",
            "medium"⟩]
        else if change_percentage < -20 then
          [⟨"positive",
            "Great job! Your spending decreased by " ++ fmtPct |change_percentage| ++
              "% this week.",
            "low"⟩]
        else []
      else []
    else []
  let acc := s1 ++ s2 ++ s3 ++ s4 ++ s5
  if acc.length < 3 then
    acc ++
      [⟨"tip",
        "Track your expenses regularly to better understand your spending patterns and identify opportunities to save.",
        "low"⟩]
  else acc

/-- `ExpenseAnalyzer._generate_suggestions`: the accumulated list truncated
to the first five entries (`return suggestions[:5]`). -/
def generate_suggestions (recs : List ExpenseRecord) (total_spending : ℚ)
    (avg : ℚ) (topCat : String) (now : Int) : List Suggestion :=
  (suggestionsBase recs total_spending avg topCat now).take 5

/-! ### `ExpenseAnalyzer._calculate_efficiency_score` -/

/-- `ExpenseAnalyzer._calculate_efficiency_score`: base 100, −20 for high
daily variance, −15 when records with amount < 100 exceed 30% of the batch,
+10 for low daily variance, clamped with `max(0, min(100, score))`.
The `total_spending` parameter is accepted and unused, as in the source. -/
def calculate_efficiency_score (recs : List ExpenseRecord) (total_spending : ℚ) : Int :=
  let score : Int := 100
  let daily_spending := (groupSum recs fun r => r.date).map fun p => p.2
  let score :=
    if 1 < daily_spending.length ∧ stdGtMul daily_spending ((1 : ℚ) / 2) then score - 20
    else score
  let small_transactions := (recs.filter fun r => decide (r.amount < 100)).length
  let score :=
    if (small_transactions : ℚ) > (recs.length : ℚ) * (3 : ℚ) / 10 then score - 15
    else score
  let score :=
    if 1 < daily_spending.length ∧ stdLtMul daily_spending ((1 : ℚ) / 5) then score + 10
    else score
  max 0 (min 100 score)

/-! ### `ExpenseAnalyzer._identify_patterns` -/

/-- `ExpenseAnalyzer._identify_patterns`: weekend-vs-weekday spending,
frequent categories (some category count > 5), and occasional large
transactions (some amount strictly above the 0.9 quantile), in this order. -/
def identify_patterns (recs : List ExpenseRecord) : List String :=
  let weekend_spending := ((recs.filter fun r => decide (weekday r.date ≥ 5)).map fun r => r.amount).sum
  let weekday_spending := ((recs.filter fun r => decide (weekday r.date < 5)).map fun r => r.amount).sum
  let p1 : List String :=
    if weekday_spending > 0 ∧ weekend_spending > weekday_spending * (3 : ℚ) / 2 then
      ["Higher spending on weekends"]
    else []
  let cats := recs.map fun r => r.category
  let category_counts := (dedupSorted cats).map fun c => cats.count c
  let p2 : List String :=
    if 0 < category_counts.length ∧ 5 < natListMax category_counts then
      ["Frequent expenses in certain categories"]
    else []
  let p3 : List String :=
    if 0 < recs.length ∧
        0 < (recs.filter fun r =>
          decide (r.amount > quantile (recs.map fun s => s.amount) ((9 : ℚ) / 10))).length then
      ["Occasional large transactions"]
    else []
  p1 ++ p2 ++ p3

/-! ### `ExpenseAnalyzer._detailed_analysis` and `analyze_expenses` -/

/-- `ExpenseAnalyzer._detailed_analysis`: the full analysis dictionary for a
non-empty batch. -/
def detailed_analysis (recs : List ExpenseRecord) (total_spending : ℚ)
    (average_daily : ℚ) (top_category : String) (top_category_amount : ℚ) : Analysis :=
  { totalSpending := total_spending
    averageDailySpending := average_daily
    topCategory := top_category
    topCategoryAmount := some top_category_amount
    categoryBreakdown := some (groupSum recs fun r => r.category)
    paymentMethodBreakdown := some (groupSum recs fun r => r.paymentMethod)
    efficiencyScore := some (calculate_efficiency_score recs total_spending)
    patterns := some (identify_patterns recs)
    message := "Analysis complete for ₹" ++ fmtMoney total_spending ++ " in spending over 30 days." }

/-- `ExpenseAnalyzer.analyze_expenses`: empty batch → fixed degenerate
result; otherwise aggregate and delegate.  `user_id` / `user_name` are
accepted and unused, as in the source; `now` is the wall-clock parameter. -/
def analyze_expenses (recs : List ExpenseRecord) (user_id user_name : String)
    (now : Int) : AnalyzeResult :=
  if recs = [] then
    { suggestions :=
        [⟨"info", "No expense data available for analysis.", "low"⟩]
      analysis :=
        { totalSpending := 0
          averageDailySpending := 0
          topCategory := "None"
          topCategoryAmount := none
          categoryBreakdown := none
          paymentMethodBreakdown := none
          efficiencyScore := none
          patterns := none
          message := "Start tracking your expenses to get personalized insights!" } }
  else
    let total_spending := (recs.map fun r => r.amount).sum
    let average_daily := total_spending / 30
    let catTotals := groupSum recs fun r => r.category
    let top_category := listIdxmax "None" catTotals
    let top_category_amount := listMaxVal catTotals
    { suggestions := generate_suggestions recs total_spending average_daily top_category now
      analysis := detailed_analysis recs total_spending average_daily top_category top_category_amount }

/-! ### Route layer (`/analyze`, `/insights`) -/

/-- Column parsing done by `pd.to_datetime(df['date'])` then
`pd.to_numeric(df['amount'])`: the date column is parsed in full first, then
the amount column; the first failure raises with that column's message. -/
def parseExpenses (raw : List RawRecord) : Except String (List ExpenseRecord) :=
  if raw.any fun r => r.date.isNone then
    Except.error "Unknown datetime string format"
  else if raw.any fun r => r.amount.isNone then
    Except.error "Unable to parse string"
  else
    Except.ok (raw.map fun r => ⟨r.date.getD 0, r.amount.getD 0, r.category, r.paymentMethod⟩)

/-- The `/analyze` route body after envelope checks: `analyze_expenses`
raises on a parse failure and the route's `except` handler converts any
exception into the 500 response `{'error': 'Analysis failed', 'message':
str(e)}`, modelled as `Except.error ("Analysis failed", message)`.  The
empty-batch check of `analyze_expenses` precedes DataFrame parsing. -/
def analyze_expenses_route (raw : List RawRecord) (user_id user_name : String)
    (now : Int) : Except (String × String) AnalyzeResult :=
  if raw = [] then
    Except.ok (analyze_expenses [] user_id user_name now)
  else
    match parseExpenses raw with
    | Except.error m => Except.error ("Analysis failed", m)
    | Except.ok recs => Except.ok (analyze_expenses recs user_id user_name now)

/-- The insights computation of the `/insights` route on a parsed batch
(lines after the DataFrame conversion): totals, `total / days`, top labels
defaulting to the literal "None" on empty groupings, breakdowns, count and
the echoed `days`. -/
def insightsCore (recs : List ExpenseRecord) (days : Int) : Insights :=
  let total_spending := (recs.map fun r => r.amount).sum
  let average_daily := total_spending / (days : ℚ)
  let category_totals := groupSum recs fun r => r.category
  let top_category := if 0 < category_totals.length then listIdxmax "None" category_totals else "None"
  let payment_totals := groupSum recs fun r => r.paymentMethod
  let top_payment := if 0 < payment_totals.length then listIdxmax "None" payment_totals else "None"
  { totalSpending := total_spending
    averageDailySpending := average_daily
    topCategory := top_category
    topPaymentMethod := top_payment
    categoryBreakdown := category_totals
    paymentMethodBreakdown := payment_totals
    transactionCount := recs.length
    daysAnalyzed := days }

/-- The `/insights` route body after envelope checks.  Unlike `/analyze`,
there is no empty-batch guard: `pd.DataFrame([])` has no columns, so
`df['date']` raises `KeyError: 'date'` and the `except` handler returns the
500 response `{'error': 'Insights generation failed', 'message': str(e)}`;
`str` of that `KeyError` is the quoted key. -/
def get_insights (raw : List RawRecord) (days : Int) : Except (String × String) Insights :=
  if raw = [] then
    Except.error ("Insights generation failed", "'date'")
  else
    match parseExpenses raw with
    | Except.error m => Except.error ("Insights generation failed", m)
    | Except.ok recs => Except.ok (insightsCore recs days)

/-! ### Spec-side definitions used for refinement comparison -/

/-- Spec-side restatement of the efficiency score (§4.2 of the spec): base
100, −20 for high daily variance, −15 when small transactions (< 100)
exceed 30% of the batch, +10 for low daily variance, as independent
additive adjustments, then `max(0, min(100, score))`.  Compared against the
source-side `calculate_efficiency_score`. -/
def specEfficiencyScore (recs : List ExpenseRecord) : Int :=
  let daily := (groupSum recs fun r => r.date).map fun p => p.2
  let adj1 : Int :=
    if 1 < daily.length ∧ stdGtMul daily ((1 : ℚ) / 2) then 20 else 0
  let adj2 : Int :=
    if (((recs.filter fun r => decide (r.amount < 100)).length : ℚ)) > (recs.length : ℚ) * (3 : ℚ) / 10
    then 15 else 0
  let adj3 : Int :=
    if 1 < daily.length ∧ stdLtMul daily ((1 : ℚ) / 5) then 10 else 0
  max 0 (min 100 (100 - adj1 - adj2 + adj3))

/-! ### Supporting lemmas -/

theorem mem_dedupSorted {κ : Type} [DecidableEq κ] [LinearOrder κ]
    (l : List κ) (x : κ) : x ∈ dedupSorted l ↔ x ∈ l := by
  unfold dedupSorted
  rw [(List.perm_insertionSort _ _).mem_iff, List.mem_dedup]

theorem nodup_dedupSorted {κ : Type} [DecidableEq κ] [LinearOrder κ]
    (l : List κ) : (dedupSorted l).Nodup :=
  ((List.perm_insertionSort _ l.dedup).nodup_iff).mpr (List.nodup_dedup l)

theorem calculate_efficiency_score_eq_spec (recs : List ExpenseRecord) (ts : ℚ) :
    calculate_efficiency_score recs ts = specEfficiencyScore recs := by
  simp only [calculate_efficiency_score, specEfficiencyScore]
  by_cases hL : 1 < ((groupSum recs fun r => r.date).map fun p => p.2).length <;>
  by_cases b1 : stdGtMul ((groupSum recs fun r => r.date).map fun p => p.2) ((1 : ℚ) / 2) = true <;>
  by_cases c2 : (((recs.filter fun r => decide (r.amount < 100)).length : ℚ)) >
      (recs.length : ℚ) * (3 : ℚ) / 10 <;>
  by_cases b3 : stdLtMul ((groupSum recs fun r => r.date).map fun p => p.2) ((1 : ℚ) / 5) = true <;>
  simp only [hL, b1, c2, b3, if_true, if_false, true_and, false_and, and_true, and_false] <;>
  norm_num

theorem calculate_efficiency_score_bounds (recs : List ExpenseRecord) (ts : ℚ) :
    0 ≤ calculate_efficiency_score recs ts ∧ calculate_efficiency_score recs ts ≤ 100 := by
  unfold calculate_efficiency_score
  constructor
  · exact le_max_left 0 _
  · exact max_le (by norm_num) (min_le_left _ _)

/-! ### Claim theorems -/

/-- C4 (confirmed): on an empty batch `analyze_expenses` returns exactly one
`info`/`low` suggestion and a degenerate analysis with zero totals,
topCategory "None", the fixed encouragement message, and none of the
aggregation/scoring/pattern fields present. -/
theorem C4_empty_batch (u n : String) (t : Int) :
    analyze_expenses [] u n t =
      { suggestions := [⟨"info", "No expense data available for analysis.", "low"⟩]
        analysis :=
          { totalSpending := 0
            averageDailySpending := 0
            topCategory := "None"
            topCategoryAmount := none
            categoryBreakdown := none
            paymentMethodBreakdown := none
            efficiencyScore := none
            patterns := none
            message := "Start tracking your expenses to get personalized insights!" } } := rfl

/-- C9 (confirmed): the `userId` / `userName` arguments have no influence on
the result of `analyze_expenses`, at the analyzer and at the route level
(two-run noninterference). -/
theorem C9_user_noninterference (recs : List ExpenseRecord) (raw : List RawRecord)
    (u1 n1 u2 n2 : String) (t : Int) :
    analyze_expenses recs u1 n1 t = analyze_expenses recs u2 n2 t ∧
      analyze_expenses_route raw u1 n1 t = analyze_expenses_route raw u2 n2 t :=
  ⟨rfl, rfl⟩

/-- C2 counterexample: on the empty batch the returned analysis dictionary
has no `efficiencyScore` key at all (the claim asserts the field is present
with an in-range value for every batch, empty included). -/
theorem C2_counterexample :
    (analyze_expenses [] "u" "u" 0).analysis.efficiencyScore = none := rfl

/-- C2 (amended): for every non-empty batch the analysis carries an
`efficiencyScore` that is an integer in [0, 100] and equals
`max(0, min(100, s))` with `s` = 100 adjusted by the three rules; on the
empty batch the degenerate analysis has no such field. -/
theorem C2_efficiency_score (recs : List ExpenseRecord) (u n : String) (t : Int)
    (h : recs ≠ []) :
    ∃ s : Int, (analyze_expenses recs u n t).analysis.efficiencyScore = some s ∧
      0 ≤ s ∧ s ≤ 100 ∧ s = specEfficiencyScore recs := by
  refine ⟨calculate_efficiency_score recs ((recs.map fun r => r.amount).sum), ?_, ?_, ?_, ?_⟩
  · simp [analyze_expenses, h, detailed_analysis]
  · exact (calculate_efficiency_score_bounds recs _).1
  · exact (calculate_efficiency_score_bounds recs _).2
  · exact calculate_efficiency_score_eq_spec recs _

/-- C2 witness: the amended statement instantiated at a concrete single
record batch (score 85: the sole record is a small transaction). -/
theorem C2_efficiency_score_witness :
    ∃ s : Int,
      (analyze_expenses [⟨0, 50, "Misc", "Card"⟩] "u" "u" 0).analysis.efficiencyScore = some s ∧
      0 ≤ s ∧ s ≤ 100 ∧ s = specEfficiencyScore [⟨0, 50, "Misc", "Card"⟩] :=
  C2_efficiency_score [⟨0, 50, "Misc", "Card"⟩] "u" "u" 0 (by simp)

/-- C7 (confirmed): on a non-empty batch, any record whose date or amount
fails to parse makes the whole `/analyze` request fail with an
analysis-failure error carrying the parse message; no partial result is
produced. -/
theorem C7_parse_failure_aborts (raw : List RawRecord) (u n : String) (t : Int)
    (hne : raw ≠ []) (hbad : ∃ r ∈ raw, r.date = none ∨ r.amount = none) :
    ∃ m, analyze_expenses_route raw u n t = Except.error ("Analysis failed", m) := by
  obtain ⟨r, hr, hcase⟩ := hbad
  unfold analyze_expenses_route
  rw [if_neg hne]
  unfold parseExpenses
  by_cases hd : raw.any fun s => s.date.isNone
  · rw [if_pos hd]
    exact ⟨_, rfl⟩
  · have hdate : r.date ≠ none := by
      intro hnone
      exact hd (List.any_eq_true.mpr ⟨r, hr, by simp [hnone]⟩)
    have hamt : r.amount = none := hcase.resolve_left hdate
    have ha : raw.any (fun s => s.amount.isNone) = true :=
      List.any_eq_true.mpr ⟨r, hr, by simp [hamt]⟩
    rw [if_neg hd, if_pos ha]
    exact ⟨_, rfl⟩

/-- C7 witness: a single record with an unparseable date aborts the request. -/
theorem C7_parse_failure_witness :
    ∃ m, analyze_expenses_route [⟨none, some 5, "A", "Cash"⟩] "u" "u" 0 =
      Except.error ("Analysis failed", m) :=
  C7_parse_failure_aborts [⟨none, some 5, "A", "Cash"⟩] "u" "u" 0 (by simp)
    ⟨⟨none, some 5, "A", "Cash"⟩, by simp, Or.inl rfl⟩

/-- C8 counterexample: an empty expenses list does not produce the "None"
defaults — the `/insights` route fails (the empty DataFrame has no `date`
column), so the claim's "in particular" instantiation is false. -/
theorem C8_counterexample :
    get_insights [] 30 = Except.error ("Insights generation failed", "'date'") := rfl

/-- C8 (amended): in the insights computation the top labels do default to
the literal "None" whenever the corresponding totals mapping is empty, but
an empty expenses list never reaches that guard: the route fails with an
insights-generation error before the totals are computed. -/
theorem C8_none_defaults (recs : List ExpenseRecord) (days : Int) :
    ((groupSum recs fun r => r.category) = [] →
        (insightsCore recs days).topCategory = "None") ∧
      ((groupSum recs fun r => r.paymentMethod) = [] →
        (insightsCore recs days).topPaymentMethod = "None") := by
  constructor <;> intro h <;> simp [insightsCore, h]

/-- C8 witness: the guard instantiated at the empty parsed batch, whose
groupings are empty. -/
theorem C8_none_defaults_witness :
    (insightsCore ([] : List ExpenseRecord) 30).topCategory = "None" ∧
      (insightsCore ([] : List ExpenseRecord) 30).topPaymentMethod = "None" :=
  ⟨(C8_none_defaults [] 30).1 rfl, (C8_none_defaults [] 30).2 rfl⟩

theorem identify_patterns_sublist (recs : List ExpenseRecord) :
    (identify_patterns recs).Sublist
      ["Higher spending on weekends", "Frequent expenses in certain categories",
        "Occasional large transactions"] := by
  simp only [identify_patterns]
  split_ifs <;> decide

/-- C5 (confirmed): for every non-empty batch the returned suggestions are
exactly the first five entries of the rule-generated list in generation
order (never reordered), hence at most five; and the patterns list is a
sublist of the three fixed pattern strings in their fixed order, hence has
at most three entries. -/
theorem C5_order_and_limits (recs : List ExpenseRecord) (u n : String) (t : Int)
    (h : recs ≠ []) :
    (analyze_expenses recs u n t).suggestions =
      (suggestionsBase recs ((recs.map fun r => r.amount).sum)
        (((recs.map fun r => r.amount).sum) / 30)
        (listIdxmax "None" (groupSum recs fun r => r.category)) t).take 5 ∧
      (analyze_expenses recs u n t).suggestions.length ≤ 5 ∧
      ∃ ps, (analyze_expenses recs u n t).analysis.patterns = some ps ∧
        ps.length ≤ 3 ∧
        ps.Sublist ["Higher spending on weekends", "Frequent expenses in certain categories",
          "Occasional large transactions"] := by
  have hsugg : (analyze_expenses recs u n t).suggestions =
      (suggestionsBase recs ((recs.map fun r => r.amount).sum)
        (((recs.map fun r => r.amount).sum) / 30)
        (listIdxmax "None" (groupSum recs fun r => r.category)) t).take 5 := by
    simp [analyze_expenses, h, generate_suggestions]
  refine ⟨hsugg, ?_, identify_patterns recs, ?_, ?_, identify_patterns_sublist recs⟩
  · rw [hsugg]
    exact List.length_take_le 5 _
  · simp [analyze_expenses, h, detailed_analysis]
  · exact le_trans (identify_patterns_sublist recs).length_le (by norm_num)

/-- C5 witness: the statement instantiated at a concrete one-record batch. -/
theorem C5_order_and_limits_witness :
    (analyze_expenses [⟨0, 5, "A", "Cash"⟩] "u" "u" 0).suggestions =
      (suggestionsBase [⟨0, 5, "A", "Cash"⟩]
        (([⟨0, 5, "A", "Cash"⟩] : List ExpenseRecord).map fun r => r.amount).sum
        (((([⟨0, 5, "A", "Cash"⟩] : List ExpenseRecord).map fun r => r.amount).sum) / 30)
        (listIdxmax "None" (groupSum [⟨0, 5, "A", "Cash"⟩] fun r => r.category)) 0).take 5 ∧
      (analyze_expenses [⟨0, 5, "A", "Cash"⟩] "u" "u" 0).suggestions.length ≤ 5 ∧
      ∃ ps, (analyze_expenses [⟨0, 5, "A", "Cash"⟩] "u" "u" 0).analysis.patterns = some ps ∧
        ps.length ≤ 3 ∧
        ps.Sublist ["Higher spending on weekends", "Frequent expenses in certain categories",
          "Occasional large transactions"] :=
  C5_order_and_limits [⟨0, 5, "A", "Cash"⟩] "u" "u" 0 (by simp)

theorem getD_interp_const (s : List ℚ) (a : ℚ) (hsall : ∀ x ∈ s, x = a) (i : Nat)
    (hi : i < s.length) (c : ℚ) :
    s.getD i 0 + c * (s.getD (i + 1) (s.getD i 0) - s.getD i 0) = a := by
  have hlo : s.getD i 0 = a := by
    rw [List.getD_eq_getElem _ _ hi]
    exact hsall _ (List.getElem_mem hi)
  have hhi : s.getD (i + 1) (s.getD i 0) = a := by
    by_cases hi2 : i + 1 < s.length
    · rw [List.getD_eq_getElem _ _ hi2]
      exact hsall _ (List.getElem_mem hi2)
    · rw [List.getD_eq_default _ _ (by omega)]
      exact hlo
  rw [hhi, hlo]
  ring

theorem quantile_const (vals : List ℚ) (a : ℚ) (hne : vals ≠ [])
    (hall : ∀ x ∈ vals, x = a) : quantile vals ((9 : ℚ) / 10) = a := by
  have hperm := List.perm_insertionSort (fun a b => a ≤ b) vals
  have hsall : ∀ x ∈ List.insertionSort (fun a b => a ≤ b) vals, x = a :=
    fun x hx => hall x (hperm.mem_iff.mp hx)
  have hnpos : 0 < (List.insertionSort (fun a b => a ≤ b) vals).length := by
    rw [hperm.length_eq]
    exact List.length_pos.mpr hne
  have h1 : (1 : ℚ) ≤ ((List.insertionSort (fun a b => a ≤ b) vals).length : ℚ) := by
    exact_mod_cast hnpos
  have h0 : (0 : ℚ) ≤ (9 : ℚ) / 10 * (((List.insertionSort (fun a b => a ≤ b) vals).length : ℚ) - 1) := by
    nlinarith
  have hlt : (9 : ℚ) / 10 * (((List.insertionSort (fun a b => a ≤ b) vals).length : ℚ) - 1) <
      ((List.insertionSort (fun a b => a ≤ b) vals).length : ℚ) := by
    nlinarith
  have hfl0 : 0 ≤ ⌊(9 : ℚ) / 10 * (((List.insertionSort (fun a b => a ≤ b) vals).length : ℚ) - 1)⌋ :=
    Int.floor_nonneg.mpr h0
  have hflt : ⌊(9 : ℚ) / 10 * (((List.insertionSort (fun a b => a ≤ b) vals).length : ℚ) - 1)⌋ <
      ((List.insertionSort (fun a b => a ≤ b) vals).length : ℤ) := by
    have hq : ((⌊(9 : ℚ) / 10 * (((List.insertionSort (fun a b => a ≤ b) vals).length : ℚ) - 1)⌋ : ℤ) : ℚ) <
        ((List.insertionSort (fun a b => a ≤ b) vals).length : ℚ) :=
      lt_of_le_of_lt (Int.floor_le _) hlt
    exact_mod_cast hq
  have hilt : (⌊(9 : ℚ) / 10 * (((List.insertionSort (fun a b => a ≤ b) vals).length : ℚ) - 1)⌋).toNat <
      (List.insertionSort (fun a b => a ≤ b) vals).length := by
    omega
  simp only [quantile]
  exact getD_interp_const _ a hsall _ hilt _

/-- C10 (confirmed): when every amount in a non-empty batch is the same
value (in particular for single-record batches), the 0.9 quantile equals
that common value, no amount strictly exceeds it, and the pattern
"Occasional large transactions" is never reported. -/
theorem C10_no_large_transaction_pattern (recs : List ExpenseRecord) (u n : String)
    (t : Int) (a : ℚ) (hne : recs ≠ []) (hall : ∀ r ∈ recs, r.amount = a) :
    ∃ ps, (analyze_expenses recs u n t).analysis.patterns = some ps ∧
      "Occasional large transactions" ∉ ps := by
  refine ⟨identify_patterns recs, by simp [analyze_expenses, hne, detailed_analysis], ?_⟩
  have hq : quantile (recs.map fun s => s.amount) ((9 : ℚ) / 10) = a := by
    apply quantile_const
    · simpa using hne
    · intro x hx
      obtain ⟨r, hr, rfl⟩ := List.mem_map.mp hx
      exact hall r hr
  have hfilt : (recs.filter fun r =>
      decide (r.amount > quantile (recs.map fun s => s.amount) ((9 : ℚ) / 10))) = [] := by
    rw [hq]
    refine List.filter_eq_nil_iff.mpr fun r hr => ?_
    simp [hall r hr]
  simp only [identify_patterns, hfilt, List.length_nil, lt_self_iff_false, and_false, if_false]
  split_ifs <;> decide

/-- C10 witness: a concrete single-record batch. -/
theorem C10_no_large_transaction_pattern_witness :
    ∃ ps, (analyze_expenses [⟨0, 5, "A", "Cash"⟩] "u" "u" 0).analysis.patterns = some ps ∧
      "Occasional large transactions" ∉ ps :=
  C10_no_large_transaction_pattern [⟨0, 5, "A", "Cash"⟩] "u" "u" 0 5 (by simp)
    (by
      intro r hr
      simp only [List.mem_singleton] at hr
      rw [hr])

theorem sumMapAdd {κ : Type} (l : List κ) (f g : κ → ℚ) :
    (l.map fun k => f k + g k).sum = (l.map f).sum + (l.map g).sum := by
  induction l with
  | nil => simp
  | cons h t ih =>
    simp only [List.map_cons, List.sum_cons, ih]
    ring

theorem sum_ite_eq_zero {κ : Type} [DecidableEq κ] (t : List κ) (k0 : κ) (a : ℚ)
    (hk0 : k0 ∉ t) : (t.map fun k => if k0 = k then a else 0).sum = 0 := by
  induction t with
  | nil => simp
  | cons h t ih =>
    have hne : k0 ≠ h := fun he => hk0 (he ▸ List.mem_cons_self h t)
    simp only [List.map_cons, List.sum_cons, if_neg hne]
    rw [ih fun ht => hk0 (List.mem_cons_of_mem h ht)]
    ring

theorem sum_ite_eq_of_mem {κ : Type} [DecidableEq κ] (K : List κ) (hK : K.Nodup)
    (k0 : κ) (hk0 : k0 ∈ K) (a : ℚ) :
    (K.map fun k => if k0 = k then a else 0).sum = a := by
  induction K with
  | nil => cases hk0
  | cons h t ih =>
    rcases List.mem_cons.mp hk0 with h1 | h1
    · subst h1
      simp only [List.map_cons, List.sum_cons, eq_self_iff_true, if_true]
      rw [sum_ite_eq_zero t k0 a (List.nodup_cons.mp hK).1]
      ring
    · have hne : k0 ≠ h := fun he => (List.nodup_cons.mp hK).1 (he ▸ h1)
      simp only [List.map_cons, List.sum_cons, if_neg hne]
      rw [ih (List.nodup_cons.mp hK).2 h1]
      ring

theorem filtered_sum_cover {κ : Type} [DecidableEq κ] (key : ExpenseRecord → κ)
    (K : List κ) (hK : K.Nodup) (recs : List ExpenseRecord)
    (hcov : ∀ r ∈ recs, key r ∈ K) :
    (K.map fun k => ((recs.filter fun r => decide (key r = k)).map fun r => r.amount).sum).sum
      = (recs.map fun r => r.amount).sum := by
  induction recs with
  | nil => simp
  | cons r recs ih =>
    have hsplit : ∀ k : κ,
        (((r :: recs).filter fun x => decide (key x = k)).map fun x => x.amount).sum
          = (if key r = k then r.amount else 0)
            + ((recs.filter fun x => decide (key x = k)).map fun x => x.amount).sum := by
      intro k
      by_cases h : key r = k <;> simp [List.filter_cons, h]
    simp only [hsplit]
    rw [sumMapAdd, ih fun x hx => hcov x (List.mem_cons_of_mem r hx),
      sum_ite_eq_of_mem K hK (key r) (hcov r (List.mem_cons_self r recs)) r.amount]
    simp only [List.map_cons, List.sum_cons]

theorem groupSum_values_sum {κ : Type} [DecidableEq κ] [LinearOrder κ]
    (recs : List ExpenseRecord) (key : ExpenseRecord → κ) :
    ((groupSum recs key).map fun p => p.2).sum = (recs.map fun r => r.amount).sum := by
  unfold groupSum
  rw [List.map_map]
  exact filtered_sum_cover key (dedupSorted (recs.map key)) (nodup_dedupSorted _)
    recs fun r hr => (mem_dedupSorted _ _).mpr (List.mem_map_of_mem key hr)

theorem filtered_sum_perm {κ : Type} [DecidableEq κ] (key : ExpenseRecord → κ)
    (recs recs' : List ExpenseRecord) (hperm : recs.Perm recs') (k : κ) :
    ((recs.filter fun r => decide (key r = k)).map fun r => r.amount).sum
      = ((recs'.filter fun r => decide (key r = k)).map fun r => r.amount).sum :=
  ((hperm.filter fun r => decide (key r = k)).map fun r => r.amount).sum_eq

/-- C3 (confirmed, exactly rather than within tolerance): for every
non-empty batch the category and payment-method breakdowns are present,
their values sum exactly to `totalSpending`, each breakdown value is the
sum of the amounts of the records carrying that label, and each value is
invariant under any permutation of the input records (it can equally be
computed from any permutation `recs'`). -/
theorem C3_breakdown_sums (recs recs' : List ExpenseRecord) (u n : String) (t : Int)
    (hne : recs ≠ []) (hperm : recs.Perm recs') :
    ∃ cb pb,
      (analyze_expenses recs u n t).analysis.categoryBreakdown = some cb ∧
      (analyze_expenses recs u n t).analysis.paymentMethodBreakdown = some pb ∧
      (cb.map fun p => p.2).sum = (analyze_expenses recs u n t).analysis.totalSpending ∧
      (pb.map fun p => p.2).sum = (analyze_expenses recs u n t).analysis.totalSpending ∧
      (∀ p ∈ cb, p.2 = ((recs'.filter fun r => decide (r.category = p.1)).map fun r => r.amount).sum) ∧
      (∀ p ∈ pb, p.2 = ((recs'.filter fun r => decide (r.paymentMethod = p.1)).map fun r => r.amount).sum) := by
  have htot : (analyze_expenses recs u n t).analysis.totalSpending = (recs.map fun r => r.amount).sum := by
    simp [analyze_expenses, hne, detailed_analysis]
  refine ⟨groupSum recs (fun r => r.category), groupSum recs (fun r => r.paymentMethod),
    by simp [analyze_expenses, hne, detailed_analysis],
    by simp [analyze_expenses, hne, detailed_analysis],
    by rw [htot]; exact groupSum_values_sum recs fun r => r.category,
    by rw [htot]; exact groupSum_values_sum recs fun r => r.paymentMethod,
    ?_, ?_⟩
  · intro p hp
    obtain ⟨k, hk, rfl⟩ := List.mem_map.mp hp
    exact filtered_sum_perm (fun r => r.category) recs recs' hperm k
  · intro p hp
    obtain ⟨k, hk, rfl⟩ := List.mem_map.mp hp
    exact filtered_sum_perm (fun r => r.paymentMethod) recs recs' hperm k

/-- C3 witness: a concrete two-record batch and a transposition of it. -/
theorem C3_breakdown_sums_witness :
    ∃ cb pb,
      (analyze_expenses [⟨0, 5, "A", "Cash"⟩, ⟨1, 7, "B", "Card"⟩] "u" "u" 0).analysis.categoryBreakdown = some cb ∧
      (analyze_expenses [⟨0, 5, "A", "Cash"⟩, ⟨1, 7, "B", "Card"⟩] "u" "u" 0).analysis.paymentMethodBreakdown = some pb ∧
      (cb.map fun p => p.2).sum =
        (analyze_expenses [⟨0, 5, "A", "Cash"⟩, ⟨1, 7, "B", "Card"⟩] "u" "u" 0).analysis.totalSpending ∧
      (pb.map fun p => p.2).sum =
        (analyze_expenses [⟨0, 5, "A", "Cash"⟩, ⟨1, 7, "B", "Card"⟩] "u" "u" 0).analysis.totalSpending ∧
      (∀ p ∈ cb, p.2 = ((([⟨1, 7, "B", "Card"⟩, ⟨0, 5, "A", "Cash"⟩] : List ExpenseRecord).filter
        fun r => decide (r.category = p.1)).map fun r => r.amount).sum) ∧
      (∀ p ∈ pb, p.2 = ((([⟨1, 7, "B", "Card"⟩, ⟨0, 5, "A", "Cash"⟩] : List ExpenseRecord).filter
        fun r => decide (r.paymentMethod = p.1)).map fun r => r.amount).sum) :=
  C3_breakdown_sums [⟨0, 5, "A", "Cash"⟩, ⟨1, 7, "B", "Card"⟩]
    [⟨1, 7, "B", "Card"⟩, ⟨0, 5, "A", "Cash"⟩] "u" "u" 0 (by simp)
    (List.Perm.swap _ _ _)

/-- C1 (amended): `analyze_expenses` is deterministic given the batch and
the current wall-clock time, and its `analysis` component is identical
across evaluations at different times; but the full output is not
independent of the clock — the recent-trend rule consults it (see the
counterexample). -/
theorem C1_analysis_time_independent (recs : List ExpenseRecord) (u n : String)
    (t1 t2 : Int) :
    (analyze_expenses recs u n t1).analysis = (analyze_expenses recs u n t2).analysis := by
  by_cases h : recs = [] <;> simp [analyze_expenses, h]

/-- C1 counterexample: the same two-record batch analyzed at two different
wall-clock times yields different outputs (at day 100 the second record is
older than 7 days and the recent-trend warning fires; at day 200 no record
is recent), so the output is not independent of ambient time. -/
theorem C1_time_dependence_counterexample :
    analyze_expenses [⟨100, 1000, "A", "Cash"⟩, ⟨90, 100, "A", "Cash"⟩] "u" "u" 100
      ≠ analyze_expenses [⟨100, 1000, "A", "Cash"⟩, ⟨90, 100, "A", "Cash"⟩] "u" "u" 200 := by
  have hne : ([⟨100, 1000, "A", "Cash"⟩, ⟨90, 100, "A", "Cash"⟩] : List ExpenseRecord) ≠ [] := by
    simp
  have h1 : (analyze_expenses [⟨100, 1000, "A", "Cash"⟩, ⟨90, 100, "A", "Cash"⟩]
      "u" "u" 100).suggestions.length = 4 := by
    norm_num [analyze_expenses, if_neg hne, generate_suggestions, suggestionsBase, groupSum,
      dedupSorted, stdGtMul, sampleVar, listMean, listIdxmax, idxmaxAux, listMaxVal,
      spending_thresholds, List.insertionSort, List.orderedInsert, List.dedup, List.pwFilter,
      List.filterMap_cons, List.filterMap_nil]
  have h2 : (analyze_expenses [⟨100, 1000, "A", "Cash"⟩, ⟨90, 100, "A", "Cash"⟩]
      "u" "u" 200).suggestions.length = 3 := by
    norm_num [analyze_expenses, if_neg hne, generate_suggestions, suggestionsBase, groupSum,
      dedupSorted, stdGtMul, sampleVar, listMean, listIdxmax, idxmaxAux, listMaxVal,
      spending_thresholds, List.insertionSort, List.orderedInsert, List.dedup, List.pwFilter,
      List.filterMap_cons, List.filterMap_nil]
  intro he
  rw [he] at h1
  omega

/-- Python `f'{x:,.2f}'` applied to the C6 scenario total 12150. -/
theorem fmtMoney_12150 : fmtMoney 12150 = "12,150.00" := by with_unfolding_all rfl

/-- Python `f'{x:.1f}'` applied to the C6 scenario percentage 100. -/
theorem fmtPct_100 : fmtPct 100 = "100.0" := by with_unfolding_all rfl

/-- C6 counterexample: the scenario batch (amounts 12000/100/50, all Food,
all Cash) with its three records on three distinct days inside the last 30
days produces FOUR suggestions, not three — the daily-variance tip also
fires — so the claim is false as stated for arbitrary in-window dates. -/
theorem C6_counterexample :
    (analyze_expenses [⟨100, 12000, "Food", "Cash"⟩, ⟨99, 100, "Food", "Cash"⟩,
      ⟨98, 50, "Food", "Cash"⟩] "u" "u" 100).suggestions.length ≠ 3 := by
  have h4 : (analyze_expenses [⟨100, 12000, "Food", "Cash"⟩, ⟨99, 100, "Food", "Cash"⟩,
      ⟨98, 50, "Food", "Cash"⟩] "u" "u" 100).suggestions.length = 4 := by
    with_unfolding_all rfl
  omega

/-- C6 (amended): for the scenario batch with all three records on the same
day within the last 30 days, the suggestions are exactly the high-spending
warning, the Food concentration advice and the Cash payment-diversity tip,
in this order, with no fallback tip. -/
theorem C6_scenario (d t : Int) (u n : String) (h30 : t - 30 ≤ d) (hle : d ≤ t) :
    (analyze_expenses [⟨d, 12000, "Food", "Cash"⟩, ⟨d, 100, "Food", "Cash"⟩,
      ⟨d, 50, "Food", "Cash"⟩] u n t).suggestions =
      [⟨"warning", "Your total spending of ₹12,150.00 in the last 30 days is quite high. Consider reviewing your expenses and identifying areas to cut back.", "high"⟩,
       ⟨"advice", "Food accounts for 100.0% of your spending. Consider setting a specific budget for this category.", "medium"⟩,
       ⟨"tip", "You only use Cash for payments. Consider diversifying your payment methods for better tracking.", "low"⟩] := by
  have hne : ([⟨d, 12000, "Food", "Cash"⟩, ⟨d, 100, "Food", "Cash"⟩,
      ⟨d, 50, "Food", "Cash"⟩] : List ExpenseRecord) ≠ [] := by simp
  by_cases hrec : t ≤ d + 7
  · norm_num [analyze_expenses, if_neg hne, generate_suggestions, suggestionsBase, groupSum,
      dedupSorted, stdGtMul, sampleVar, listMean, listIdxmax, idxmaxAux, listMaxVal,
      spending_thresholds, List.insertionSort, List.orderedInsert, List.dedup, List.pwFilter,
      List.filterMap_cons, List.filterMap_nil, List.filter_cons, hrec, fmtMoney_12150, fmtPct_100]
    exact ⟨rfl, rfl, rfl⟩
  · norm_num [analyze_expenses, if_neg hne, generate_suggestions, suggestionsBase, groupSum,
      dedupSorted, stdGtMul, sampleVar, listMean, listIdxmax, idxmaxAux, listMaxVal,
      spending_thresholds, List.insertionSort, List.orderedInsert, List.dedup, List.pwFilter,
      List.filterMap_cons, List.filterMap_nil, List.filter_cons, hrec, fmtMoney_12150, fmtPct_100]
    exact ⟨rfl, rfl, rfl⟩

/-- C6 witness: the amended scenario instantiated on a concrete same-day
batch (day 100, analyzed on day 100). -/
theorem C6_scenario_witness :
    (analyze_expenses [⟨100, 12000, "Food", "Cash"⟩, ⟨100, 100, "Food", "Cash"⟩,
      ⟨100, 50, "Food", "Cash"⟩] "u" "u" 100).suggestions =
      [⟨"warning", "Your total spending of ₹12,150.00 in the last 30 days is quite high. Consider reviewing your expenses and identifying areas to cut back.", "high"⟩,
       ⟨"advice", "Food accounts for 100.0% of your spending. Consider setting a specific budget for this category.", "medium"⟩,
       ⟨"tip", "You only use Cash for payments. Consider diversifying your payment methods for better tracking.", "low"⟩] :=
  C6_scenario 100 100 "u" "u" (by omega) (by omega)

end PFT
